import Mathlib

/-!
# ESP32 platform NIFs of AtomVM (`src/platforms/esp32/main/platform_nifs.c`)

A shallow embedding of the four native functions `esp:random/0`,
`esp:random_bytes/1`, `esp:restart/0`, `esp:reset_reason/0` and of the
dispatch function `platform_nifs_get_nif`.

The C functions run against a machine state (the context's register file, a
caller-owned argument array, the outstanding `malloc` buffers and a log of the
calls made to collaborators).  The collaborators whose outcome the C code
cannot determine (hardware RNG, `malloc`, `memory_ensure_free`, reset cause)
are inputs of the model, collected in `Platform`.
-/

namespace AtomVM

/-! ## Terms -/

/-- Modelled from the spec: the `term` type of `term.h` (not under src/), as the
spec's data model gives it: an immediate value (atom, small integer), a boxed
heap value (boxed integer, binary), or the invalid sentinel.  An atom is
identified by its name, since the atom table interns names. -/
inductive Term where
  | invalid
  | atom (name : List Char)
  | integer (value : Int)
  | boxed_int (value : Int)
  | binary (bytes : List Nat)
  | other (tag : Nat)
deriving DecidableEq, Repr

/-- Modelled from the spec: `term_invalid_term()` of `term.h`, the invalid sentinel. -/
def term_invalid_term : Term := Term.invalid

/-- Modelled from the spec: `term_is_integer` of `term.h`, true of immediate
integer terms only. -/
def term_is_integer : Term → Bool
  | Term.integer _ => true
  | _ => false

/-- Modelled from the spec: `term_to_int` of `term.h`, the `avm_int_t` value of an
integer term (only called on terms that passed `term_is_integer`). -/
def term_to_int : Term → Int
  | Term.integer v => v
  | _ => 0

/-- Modelled from the spec: the default atoms of `defaultatoms.h` (not under src/). -/
def ERROR_ATOM : Term := Term.atom "error".toList

/-- Modelled from the spec: the `badarg` default atom of `defaultatoms.h`. -/
def BADARG_ATOM : Term := Term.atom "badarg".toList

/-- Modelled from the spec: the `out_of_memory` default atom of `defaultatoms.h`. -/
def OUT_OF_MEMORY_ATOM : Term := Term.atom "out_of_memory".toList

/-- Modelled from the spec: the `ok` default atom of `defaultatoms.h`. -/
def OK_ATOM : Term := Term.atom "ok".toList

/-- Modelled from the spec: the `undefined` default atom of `defaultatoms.h`. -/
def UNDEFINED_ATOM : Term := Term.atom "undefined".toList

/-! ## Platform constants and collaborators -/

/-- Modelled from the spec: the result codes of `memory_ensure_free` (`memory.h`, not
under src/): `ok`, or a failure to certify the requested space. -/
inductive MemoryGCResult where
  | MEMORY_GC_OK
  | MEMORY_GC_ERROR_FAILED_ALLOCATION
deriving DecidableEq, Repr

/-- Modelled from the spec: the constants and types of `term.h` that the NIFs use and
that are not under src/, taken as parameters: the width in bits of `avm_int_t`, the
heap words of a boxed integer and of a binary header, and the data words of a binary
of a given length. -/
structure TermConfig where
  avm_int_bits : Nat
  BOXED_INT_SIZE : Nat
  BINARY_HEADER_SIZE : Nat
  term_binary_data_size_in_terms : Nat → Nat

/-- The parameters on the ESP32, a 32-bit target: `avm_int_t` is 32 bits wide and a
heap word holds four bytes. -/
def esp32 : TermConfig where
  avm_int_bits := 32
  BOXED_INT_SIZE := 2
  BINARY_HEADER_SIZE := 2
  term_binary_data_size_in_terms := fun size => (size + 4 - 1) / 4 + 1

/-- Outcomes of the collaborators during one call, which the C code does not
determine: the word read from the hardware RNG, the random byte stream, the
reset cause, whether `memory_ensure_free` and `malloc` succeed, and the
indeterminate content of freshly allocated native memory. -/
structure Platform where
  esp_random : Nat
  esp_fill_random : Nat → Nat
  esp_reset_reason : Int
  memory_ensure_free : Nat → MemoryGCResult
  malloc : Nat → Bool
  uninitialised : Nat → Nat

/-! ## Machine state -/

/-- Calls to collaborators, in the order the NIF makes them. -/
inductive Event where
  | esp_random
  | memory_ensure_free (words : Nat)
  | malloc (size : Nat)
  | free (ptr : Nat)
  | esp_fill_random (ptr : Nat) (len : Nat)
  | term_make_boxed_int (value : Int)
  | term_from_literal_binary (src : Option Nat) (len : Nat)
  | esp_restart
  | esp_reset_reason
  | context_make_atom (name : List Char)
deriving DecidableEq, Repr

/-- What the `term argv[]` parameter points at: the context's own register file
`ctx->x`, or an array of the caller distinct from it. -/
inductive ArgPtr where
  | ctx_x
  | caller_array
deriving DecidableEq, Repr

/-- The state a NIF runs against: `x` is the register file `ctx->x`, `args` a
caller-owned array distinct from it, `buffers` the outstanding `malloc`
blocks (address and content), `trace` the calls made so far. -/
structure Machine where
  x : Nat → Term
  args : Nat → Term
  buffers : List (Nat × List Nat)
  trace : List Event

/-- How a call ends: it returns a value to its caller, the device restarts and
control never comes back, or the call reads memory it does not own. -/
inductive Outcome (α : Type) where
  | returned (value : α) (m : Machine)
  | restarted (m : Machine)
  | fault (m : Machine)

/-- A native computation. -/
def NifM (α : Type) : Type := Machine → Outcome α

/-- Sequencing: what follows a step runs only if the step returns. -/
def NifM.bind {α β : Type} (c : NifM α) (f : α → NifM β) : NifM β :=
  fun m =>
    match c m with
    | Outcome.returned a m1 => f a m1
    | Outcome.restarted m1 => Outcome.restarted m1
    | Outcome.fault m1 => Outcome.fault m1

instance : Monad NifM where
  pure := fun a m => Outcome.returned a m
  bind := NifM.bind

/-- Append an event to the log. -/
def Machine.log (m : Machine) (e : Event) : Machine :=
  { m with trace := m.trace ++ [e] }

/-- The value a call returned, if it returned. -/
def Outcome.value? {α : Type} : Outcome α → Option α
  | Outcome.returned a _ => some a
  | _ => none

/-- The machine state in which a call ended. -/
def Outcome.machine {α : Type} : Outcome α → Machine
  | Outcome.returned _ m => m
  | Outcome.restarted m => m
  | Outcome.fault m => m

/-- Whether control came back to the caller. -/
def Outcome.returns {α : Type} : Outcome α → Bool
  | Outcome.returned _ _ => true
  | _ => false

/-! ## Memory accesses of the NIFs -/

/-- The term stored at `argv[i]`. -/
def Machine.arg (m : Machine) (argv : ArgPtr) (i : Nat) : Term :=
  match argv with
  | ArgPtr.ctx_x => m.x i
  | ArgPtr.caller_array => m.args i

/-- Read `argv[i]`. -/
def read_argv (argv : ArgPtr) (i : Nat) : NifM Term :=
  fun m => Outcome.returned (m.arg argv i) m

/-- Write `argv[i] = t`. -/
def write_argv (argv : ArgPtr) (i : Nat) (t : Term) : NifM Unit :=
  fun m =>
    match argv with
    | ArgPtr.ctx_x => Outcome.returned () { m with x := Function.update m.x i t }
    | ArgPtr.caller_array => Outcome.returned () { m with args := Function.update m.args i t }

/-- Write `ctx->x[i] = t`. -/
def write_x (i : Nat) (t : Term) : NifM Unit :=
  fun m => Outcome.returned () { m with x := Function.update m.x i t }

/-! ## Collaborators -/

/-- The hardware RNG: `uint32_t esp_random(void)`. -/
def esp_random (p : Platform) : NifM Nat :=
  fun m => Outcome.returned (p.esp_random % 2 ^ 32) (m.log Event.esp_random)

/-- Modelled from the spec: the allocation guard `memory_ensure_free(ctx, words)` of
`memory.h` (not under src/): it answers `ok` or a failure and constructs nothing. -/
def memory_ensure_free (p : Platform) (words : Nat) : NifM MemoryGCResult :=
  fun m => Outcome.returned (p.memory_ensure_free words) (m.log (Event.memory_ensure_free words))

/-- An address no outstanding buffer has. -/
def fresh_ptr (buffers : List (Nat × List Nat)) : Nat :=
  (buffers.map Prod.fst).foldr max 0 + 1

/-- The libc `malloc(size)`: `none` is the null pointer; a block that is handed
out has `size` bytes of indeterminate content. -/
def malloc (p : Platform) (size : Nat) : NifM (Option Nat) :=
  fun m =>
    if p.malloc size then
      let ptr := fresh_ptr m.buffers
      Outcome.returned (some ptr)
        { (m.log (Event.malloc size)) with
          buffers := (ptr, (List.range size).map p.uninitialised) :: m.buffers }
    else
      Outcome.returned none (m.log (Event.malloc size))

/-- The libc `free(ptr)`. -/
def free (ptr : Nat) : NifM Unit :=
  fun m =>
    Outcome.returned ()
      { (m.log (Event.free ptr)) with buffers := m.buffers.filter (fun b => b.1 ≠ ptr) }

/-- The bytes the raw-bytes adapter produces for a request of `len` bytes. -/
def random_bytes (p : Platform) (len : Nat) : List Nat :=
  (List.range len).map (fun i => p.esp_fill_random i % 256)

/-- The raw-bytes adapter `esp_fill_random(buf, len)`: overwrites the first `len`
bytes of the block at `buf`. -/
def esp_fill_random (p : Platform) (buf : Nat) (len : Nat) : NifM Unit :=
  fun m =>
    match m.buffers.lookup buf with
    | some old =>
      Outcome.returned ()
        { (m.log (Event.esp_fill_random buf len)) with
          buffers := m.buffers.map
            (fun b => if b.1 = buf then (b.1, random_bytes p len ++ old.drop len) else b) }
    | none => Outcome.fault (m.log (Event.esp_fill_random buf len))

/-- Modelled from the spec: `term_make_boxed_int(avm_int_t value, ctx)` of `term.h`
(not under src/): writes a boxed cell holding `value` and returns the term
referencing it; it cannot fail once the guard has succeeded. -/
def term_make_boxed_int (value : Int) : NifM Term :=
  fun m => Outcome.returned (Term.boxed_int value) (m.log (Event.term_make_boxed_int value))

/-- Modelled from the spec: `term_from_literal_binary(data, size, ctx)` of `term.h`
(not under src/): copies `size` bytes from the source into a new heap binary,
byte-exact; for size zero nothing is copied and no source is needed. -/
def term_from_literal_binary (src : Option Nat) (len : Nat) : NifM Term :=
  fun m =>
    let m1 := m.log (Event.term_from_literal_binary src len)
    if len = 0 then Outcome.returned (Term.binary []) m1
    else
      match src with
      | none => Outcome.fault m1
      | some ptr =>
        match m.buffers.lookup ptr with
        | some content => Outcome.returned (Term.binary (content.take len)) m1
        | none => Outcome.fault m1

/-- The restart adapter `esp_restart()`: the device restarts, the call does not
return. -/
def esp_restart : NifM Unit :=
  fun m => Outcome.restarted (m.log Event.esp_restart)

/-- The reset-cause adapter `esp_reset_reason()`. -/
def esp_reset_reason (p : Platform) : NifM Int :=
  fun m => Outcome.returned p.esp_reset_reason (m.log Event.esp_reset_reason)

/-- Modelled from the spec: `context_make_atom(ctx, atom_string)` of `context.h`
(not under src/): interns a length-prefixed atom string, whose first byte is
the length of the name that follows, and returns the atom of that name. -/
def context_make_atom (atom_string : List Char) : NifM Term :=
  fun m =>
    match atom_string with
    | [] => Outcome.fault m
    | len :: name =>
      Outcome.returned (Term.atom (name.take len.toNat))
        (m.log (Event.context_make_atom (name.take len.toNat)))

/-- Conversion of an unsigned value to the signed `avm_int_t` of `bits` bits, as
happens when a `uint32_t` is passed for an `avm_int_t` parameter. -/
def to_avm_int (bits : Nat) (v : Nat) : Int :=
  if v % 2 ^ bits < 2 ^ (bits - 1) then (v % 2 ^ bits : Nat) else ((v % 2 ^ bits : Nat) : Int) - 2 ^ bits

/-! ## Error macros -/

/-- The macro `VALIDATE_VALUE(value, verify_function)`: when the check fails it
stores the error pair through `argv` and returns the invalid term; otherwise
the function body goes on. -/
def VALIDATE_VALUE (argv : ArgPtr) (value : Term) (verify_function : Term → Bool)
    (rest : NifM Term) : NifM Term :=
  if !verify_function value then do
    write_argv argv 0 ERROR_ATOM
    write_argv argv 1 BADARG_ATOM
    pure term_invalid_term
  else rest

/-- The macro `RAISE_ERROR(error_type_atom)`: stores the error pair in `ctx->x`
and returns the invalid term. -/
def RAISE_ERROR (error_type_atom : Term) : NifM Term := do
  write_x 0 ERROR_ATOM
  write_x 1 error_type_atom
  pure term_invalid_term

/-! ## Reset-cause atom literals

Each literal of the source is two adjacent string literals: the length byte and the
name. -/

def esp_rst_unknown_atom : List Char := ("\x0F" ++ "esp_rst_unknown").toList
def esp_rst_poweron : List Char := ("\x0F" ++ "esp_rst_poweron").toList
def esp_rst_ext : List Char := ("\x0B" ++ "esp_rst_ext").toList
def esp_rst_sw : List Char := ("\x0A" ++ "esp_rst_sw").toList
def esp_rst_panic : List Char := ("\x0D" ++ "esp_rst_panic").toList
def esp_rst_int_wdt : List Char := ("\x0F" ++ "esp_rst_int_wdt").toList
def esp_rst_task_wdt : List Char := ("\x10" ++ "esp_rst_task_wdt").toList
def esp_rst_wdt : List Char := ("\x0B" ++ "esp_rst_wdt").toList
def esp_rst_deepsleep : List Char := ("\x11" ++ "esp_rst_deepsleep").toList
def esp_rst_brownout : List Char := ("\x10" ++ "esp_rst_brownout").toList
def esp_rst_sdio : List Char := ("\x0C" ++ "esp_rst_sdio").toList

/-! ## Reset-cause codes

The enumerators of `esp_reset_reason_t` come from the platform header
`esp_system.h`, which is not under src/; they are numbered in the order of their
declaration there.  The results below use that the eleven codes are distinct, not
their values. -/

/-- Modelled from the spec: the cause code of an unknown or unclassified reset. -/
def ESP_RST_UNKNOWN : Int := 0

/-- Modelled from the spec: the cause code of a reset by power-on. -/
def ESP_RST_POWERON : Int := 1

/-- Modelled from the spec: the cause code of a reset by the external pin. -/
def ESP_RST_EXT : Int := 2

/-- Modelled from the spec: the cause code of a reset by software restart. -/
def ESP_RST_SW : Int := 3

/-- Modelled from the spec: the cause code of a reset by panic. -/
def ESP_RST_PANIC : Int := 4

/-- Modelled from the spec: the cause code of a reset by interrupt watchdog. -/
def ESP_RST_INT_WDT : Int := 5

/-- Modelled from the spec: the cause code of a reset by task watchdog. -/
def ESP_RST_TASK_WDT : Int := 6

/-- Modelled from the spec: the cause code of a reset by another watchdog. -/
def ESP_RST_WDT : Int := 7

/-- Modelled from the spec: the cause code of a reset by wake from deep sleep. -/
def ESP_RST_DEEPSLEEP : Int := 8

/-- Modelled from the spec: the cause code of a reset by brownout. -/
def ESP_RST_BROWNOUT : Int := 9

/-- Modelled from the spec: the cause code of a reset by SDIO. -/
def ESP_RST_SDIO : Int := 10

/-! ## NIFs -/

/-- The C function `nif_esp_random`. -/
def nif_esp_random (cfg : TermConfig) (p : Platform) (_argc : Int) (_argv : ArgPtr) :
    NifM Term := do
  let r ← esp_random p
  if (← memory_ensure_free p cfg.BOXED_INT_SIZE) ≠ MemoryGCResult.MEMORY_GC_OK then
    RAISE_ERROR OUT_OF_MEMORY_ATOM
  else
    term_make_boxed_int (to_avm_int cfg.avm_int_bits r)

/-- The C function `nif_esp_random_bytes`. -/
def nif_esp_random_bytes (cfg : TermConfig) (p : Platform) (_argc : Int) (argv : ArgPtr) :
    NifM Term := do
  let value ← read_argv argv 0
  VALIDATE_VALUE argv value term_is_integer do
    let len := term_to_int (← read_argv argv 0)
    if len < 0 then
      RAISE_ERROR BADARG_ATOM
    else if len = 0 then do
      if (← memory_ensure_free p
            (cfg.term_binary_data_size_in_terms 0 + cfg.BINARY_HEADER_SIZE))
          ≠ MemoryGCResult.MEMORY_GC_OK then
        RAISE_ERROR OUT_OF_MEMORY_ATOM
      else
        term_from_literal_binary none len.toNat
    else do
      match (← malloc p len.toNat) with
      | none => RAISE_ERROR OUT_OF_MEMORY_ATOM
      | some buf => do
        esp_fill_random p buf len.toNat
        if (← memory_ensure_free p
              (cfg.term_binary_data_size_in_terms len.toNat + cfg.BINARY_HEADER_SIZE))
            ≠ MemoryGCResult.MEMORY_GC_OK then
          RAISE_ERROR OUT_OF_MEMORY_ATOM
        else do
          let binary ← term_from_literal_binary (some buf) len.toNat
          free buf
          pure binary

/-- The C function `nif_esp_restart`. -/
def nif_esp_restart (_cfg : TermConfig) (_p : Platform) (_argc : Int) (_argv : ArgPtr) :
    NifM Term := do
  esp_restart
  pure OK_ATOM

/-- The C function `nif_esp_reset_reason`. -/
def nif_esp_reset_reason (_cfg : TermConfig) (p : Platform) (_argc : Int) (_argv : ArgPtr) :
    NifM Term := do
  let reason ← esp_reset_reason p
  if reason = ESP_RST_UNKNOWN then context_make_atom esp_rst_unknown_atom
  else if reason = ESP_RST_POWERON then context_make_atom esp_rst_poweron
  else if reason = ESP_RST_EXT then context_make_atom esp_rst_ext
  else if reason = ESP_RST_SW then context_make_atom esp_rst_sw
  else if reason = ESP_RST_PANIC then context_make_atom esp_rst_panic
  else if reason = ESP_RST_INT_WDT then context_make_atom esp_rst_int_wdt
  else if reason = ESP_RST_TASK_WDT then context_make_atom esp_rst_task_wdt
  else if reason = ESP_RST_WDT then context_make_atom esp_rst_wdt
  else if reason = ESP_RST_DEEPSLEEP then context_make_atom esp_rst_deepsleep
  else if reason = ESP_RST_BROWNOUT then context_make_atom esp_rst_brownout
  else if reason = ESP_RST_SDIO then context_make_atom esp_rst_sdio
  else pure UNDEFINED_ATOM

/-! ## NIF structures and dispatch -/

/-- Modelled from the spec: the function kinds a descriptor can carry
(`exportedfunction.h`, not under src/). -/
inductive FunctionType where
  | NIFFunctionType
  | BIFFunctionType
  | GCBIFFunctionType
  | ModuleFunction
deriving DecidableEq, Repr

/-- Modelled from the spec: the descriptor `struct Nif` (`nifs.h`, not under src/), with
the two fields the initialisers of the source set: the kind tag `base.type` and the
entry point `nif_ptr`. -/
structure Nif where
  base_type : FunctionType
  nif_ptr : TermConfig → Platform → Int → ArgPtr → NifM Term

/-- The descriptor `esp_random_nif` of the source. -/
def esp_random_nif : Nif where
  base_type := FunctionType.NIFFunctionType
  nif_ptr := nif_esp_random

/-- The descriptor `esp_random_bytes_nif` of the source. -/
def esp_random_bytes_nif : Nif where
  base_type := FunctionType.NIFFunctionType
  nif_ptr := nif_esp_random_bytes

/-- The descriptor `esp_restart_nif` of the source. -/
def esp_restart_nif : Nif where
  base_type := FunctionType.NIFFunctionType
  nif_ptr := nif_esp_restart

/-- The descriptor `esp_reset_reason_nif` of the source. -/
def esp_reset_reason_nif : Nif where
  base_type := FunctionType.NIFFunctionType
  nif_ptr := nif_esp_reset_reason

/-- The libc `strcmp` on two character arrays; the end of a list stands for the
terminating NUL, and a NUL inside a list ends the string there. -/
def strcmp : List Char → List Char → Int
  | [], [] => 0
  | [], b :: _ => 0 - (b.toNat : Int)
  | a :: _, [] => (a.toNat : Int)
  | a :: s1, b :: s2 =>
    if a = b then (if a.toNat = 0 then 0 else strcmp s1 s2)
    else (a.toNat : Int) - (b.toNat : Int)

/-- The characters of a C string: those before the first NUL. -/
def c_string (s : List Char) : List Char :=
  s.takeWhile (fun c => c.toNat ≠ 0)

/-- The C function `platform_nifs_get_nif`; `none` is the `NULL` result. -/
def platform_nifs_get_nif (nifname : List Char) : Option Nif :=
  if strcmp "esp:random/0".toList nifname = 0 then some esp_random_nif
  else if strcmp "esp:random_bytes/1".toList nifname = 0 then some esp_random_bytes_nif
  else if strcmp "esp:restart/0".toList nifname = 0 then some esp_restart_nif
  else if strcmp "esp:reset_reason/0".toList nifname = 0 then some esp_reset_reason_nif
  else none

/-! ## Tables of the reset causes -/

/-- The eleven cause codes the `switch` of `nif_esp_reset_reason` names. -/
def defined_reset_codes : List Int :=
  [ESP_RST_UNKNOWN, ESP_RST_POWERON, ESP_RST_EXT, ESP_RST_SW, ESP_RST_PANIC,
   ESP_RST_INT_WDT, ESP_RST_TASK_WDT, ESP_RST_WDT, ESP_RST_DEEPSLEEP, ESP_RST_BROWNOUT,
   ESP_RST_SDIO]

/-- The eleven atom literals, in the order of their declaration. -/
def reset_atom_literals : List (List Char) :=
  [esp_rst_unknown_atom, esp_rst_poweron, esp_rst_ext, esp_rst_sw, esp_rst_panic,
   esp_rst_int_wdt, esp_rst_task_wdt, esp_rst_wdt, esp_rst_deepsleep, esp_rst_brownout,
   esp_rst_sdio]

/-- The name a length-prefixed atom literal encodes. -/
def atom_literal_name (lit : List Char) : List Char :=
  match lit with
  | [] => []
  | len :: name => name.take len.toNat

/-! ## Sample inputs -/

/-- A machine whose registers and argument array all hold `t`, with no outstanding
buffer and an empty log. -/
def Machine.init (xs args : Term) : Machine where
  x := fun _ => xs
  args := fun _ => args
  buffers := []
  trace := []

/-- A platform on which every allocation succeeds. -/
def Platform.generous (r : Nat) (reason : Int) : Platform where
  esp_random := r
  esp_fill_random := fun i => 7 * i + 3
  esp_reset_reason := reason
  memory_ensure_free := fun _ => MemoryGCResult.MEMORY_GC_OK
  malloc := fun _ => true
  uninitialised := fun _ => 170

/-- A platform on which `malloc` succeeds and the allocation guard fails. -/
def Platform.exhausted (r : Nat) : Platform where
  esp_random := r
  esp_fill_random := fun i => 7 * i + 3
  esp_reset_reason := 0
  memory_ensure_free := fun _ => MemoryGCResult.MEMORY_GC_ERROR_FAILED_ALLOCATION
  malloc := fun _ => true
  uninitialised := fun _ => 170

/-! ## Sequencing lemmas -/

/-- Running `pure`. -/
theorem pure_run {α : Type} (a : α) (m : Machine) :
    (pure a : NifM α) m = Outcome.returned a m := rfl

/-- Running a sequence is `NifM.bind`. -/
theorem bind_run {α β : Type} (c : NifM α) (f : α → NifM β) (m : Machine) :
    (c >>= f) m = NifM.bind c f m := rfl

/-- `RAISE_ERROR` returns the invalid term and changes registers 0 and 1 only. -/
theorem RAISE_ERROR_run (e : Term) (m : Machine) :
    RAISE_ERROR e m = Outcome.returned term_invalid_term
      { m with x := Function.update (Function.update m.x 0 ERROR_ATOM) 1 e } := rfl

/-! ## C3: negative length -/

/-- C3: for every context, every argument vector whose first argument is an integer
term `n < 0`, `random_bytes` returns the invalid term with register 0 = `error` and
register 1 = `badarg`; no collaborator is called (the log is unchanged: no allocation
guard, no `malloc`, no `esp_fill_random`) and no buffer is acquired. -/
theorem random_bytes_negative_badarg (cfg : TermConfig) (p : Platform) (argc : Int)
    (argv : ArgPtr) (m : Machine) (n : Int)
    (harg : m.arg argv 0 = Term.integer n) (hn : n < 0) :
    (nif_esp_random_bytes cfg p argc argv m).value? = some term_invalid_term ∧
    (nif_esp_random_bytes cfg p argc argv m).machine.x 0 = ERROR_ATOM ∧
    (nif_esp_random_bytes cfg p argc argv m).machine.x 1 = BADARG_ATOM ∧
    (nif_esp_random_bytes cfg p argc argv m).machine.trace = m.trace ∧
    (nif_esp_random_bytes cfg p argc argv m).machine.buffers = m.buffers := by
  have h : nif_esp_random_bytes cfg p argc argv m = RAISE_ERROR BADARG_ATOM m := by
    simp [nif_esp_random_bytes, bind_run, NifM.bind, read_argv, VALIDATE_VALUE, harg,
      term_is_integer, term_to_int, hn]
  rw [h, RAISE_ERROR_run]
  simp [Outcome.value?, Outcome.machine]

/-- Witness of C3: `random_bytes(-1)` called on the register file. -/
theorem random_bytes_negative_badarg_witness :
    (nif_esp_random_bytes esp32 (Platform.generous 0 0) 1 ArgPtr.ctx_x
        (Machine.init (Term.integer (-1)) OK_ATOM)).value? = some term_invalid_term ∧
    (nif_esp_random_bytes esp32 (Platform.generous 0 0) 1 ArgPtr.ctx_x
        (Machine.init (Term.integer (-1)) OK_ATOM)).machine.x 0 = ERROR_ATOM ∧
    (nif_esp_random_bytes esp32 (Platform.generous 0 0) 1 ArgPtr.ctx_x
        (Machine.init (Term.integer (-1)) OK_ATOM)).machine.x 1 = BADARG_ATOM ∧
    (nif_esp_random_bytes esp32 (Platform.generous 0 0) 1 ArgPtr.ctx_x
        (Machine.init (Term.integer (-1)) OK_ATOM)).machine.trace =
      (Machine.init (Term.integer (-1)) OK_ATOM).trace ∧
    (nif_esp_random_bytes esp32 (Platform.generous 0 0) 1 ArgPtr.ctx_x
        (Machine.init (Term.integer (-1)) OK_ATOM)).machine.buffers =
      (Machine.init (Term.integer (-1)) OK_ATOM).buffers :=
  random_bytes_negative_badarg esp32 (Platform.generous 0 0) 1 ArgPtr.ctx_x
    (Machine.init (Term.integer (-1)) OK_ATOM) (-1) rfl (by decide)

/-! ## C4: a first argument that is not an integer -/

/-- `VALIDATE_VALUE` stores the error pair through `argv`: in the register file when
`argv` is `ctx->x`, in the caller's array otherwise. -/
theorem random_bytes_not_integer_run (cfg : TermConfig) (p : Platform) (argc : Int)
    (argv : ArgPtr) (m : Machine) (h : term_is_integer (m.arg argv 0) = false) :
    nif_esp_random_bytes cfg p argc argv m =
      match argv with
      | ArgPtr.ctx_x => Outcome.returned term_invalid_term
          { m with x := Function.update (Function.update m.x 0 ERROR_ATOM) 1 BADARG_ATOM }
      | ArgPtr.caller_array => Outcome.returned term_invalid_term
          { m with args := Function.update (Function.update m.args 0 ERROR_ATOM) 1 BADARG_ATOM } := by
  cases argv <;>
    simp [nif_esp_random_bytes, bind_run, NifM.bind, read_argv, VALIDATE_VALUE, h,
      write_argv, pure_run]

/-- A remark outside the calling convention: were `argv` an array of the caller distinct
from the register file, here `[ok, ok]` while every register holds `7`, the error pair
would land in that array and registers 0 and 1 would keep `7`.  The interpreter passes
arguments in the register file, so this input does not arise. -/
theorem random_bytes_not_integer_separate_argv :
    (nif_esp_random_bytes esp32 (Platform.generous 0 0) 1 ArgPtr.caller_array
        (Machine.init (Term.integer 7) OK_ATOM)).value? = some term_invalid_term ∧
    (nif_esp_random_bytes esp32 (Platform.generous 0 0) 1 ArgPtr.caller_array
        (Machine.init (Term.integer 7) OK_ATOM)).machine.x 0 = Term.integer 7 ∧
    (nif_esp_random_bytes esp32 (Platform.generous 0 0) 1 ArgPtr.caller_array
        (Machine.init (Term.integer 7) OK_ATOM)).machine.x 1 = Term.integer 7 ∧
    (nif_esp_random_bytes esp32 (Platform.generous 0 0) 1 ArgPtr.caller_array
        (Machine.init (Term.integer 7) OK_ATOM)).machine.args 0 = ERROR_ATOM ∧
    (nif_esp_random_bytes esp32 (Platform.generous 0 0) 1 ArgPtr.caller_array
        (Machine.init (Term.integer 7) OK_ATOM)).machine.args 1 = BADARG_ATOM ∧
    (nif_esp_random_bytes esp32 (Platform.generous 0 0) 1 ArgPtr.caller_array
        (Machine.init (Term.integer 7) OK_ATOM)).machine.trace = [] ∧
    Term.integer 7 ≠ ERROR_ATOM ∧ Term.integer 7 ≠ BADARG_ATOM := by
  decide

/-- C4: for every context, when the argument vector (the register file `ctx->x`, in
which the calling convention passes arguments) has a first argument that is not an
integer term, `random_bytes` returns the invalid term, register 0 holds `error` and
register 1 holds `badarg` on return, no collaborator is called (the log is unchanged:
no allocation guard, no `malloc`, no `esp_fill_random`) and no buffer is acquired. -/
theorem random_bytes_not_integer_aliased (cfg : TermConfig) (p : Platform) (argc : Int)
    (m : Machine) (h : term_is_integer (m.x 0) = false) :
    (nif_esp_random_bytes cfg p argc ArgPtr.ctx_x m).value? = some term_invalid_term ∧
    (nif_esp_random_bytes cfg p argc ArgPtr.ctx_x m).machine.x 0 = ERROR_ATOM ∧
    (nif_esp_random_bytes cfg p argc ArgPtr.ctx_x m).machine.x 1 = BADARG_ATOM ∧
    (nif_esp_random_bytes cfg p argc ArgPtr.ctx_x m).machine.trace = m.trace ∧
    (nif_esp_random_bytes cfg p argc ArgPtr.ctx_x m).machine.buffers = m.buffers := by
  rw [random_bytes_not_integer_run cfg p argc ArgPtr.ctx_x m h]
  simp [Outcome.value?, Outcome.machine]

/-- Witness of C4: `random_bytes(ok)`, the argument in register 0. -/
theorem random_bytes_not_integer_aliased_witness :
    term_is_integer ((Machine.init OK_ATOM OK_ATOM).x 0) = false ∧
    (nif_esp_random_bytes esp32 (Platform.generous 0 0) 1 ArgPtr.ctx_x
        (Machine.init OK_ATOM OK_ATOM)).value? = some term_invalid_term ∧
    (nif_esp_random_bytes esp32 (Platform.generous 0 0) 1 ArgPtr.ctx_x
        (Machine.init OK_ATOM OK_ATOM)).machine.x 0 = ERROR_ATOM ∧
    (nif_esp_random_bytes esp32 (Platform.generous 0 0) 1 ArgPtr.ctx_x
        (Machine.init OK_ATOM OK_ATOM)).machine.x 1 = BADARG_ATOM ∧
    (nif_esp_random_bytes esp32 (Platform.generous 0 0) 1 ArgPtr.ctx_x
        (Machine.init OK_ATOM OK_ATOM)).machine.trace = (Machine.init OK_ATOM OK_ATOM).trace ∧
    (nif_esp_random_bytes esp32 (Platform.generous 0 0) 1 ArgPtr.ctx_x
        (Machine.init OK_ATOM OK_ATOM)).machine.buffers
      = (Machine.init OK_ATOM OK_ATOM).buffers :=
  ⟨rfl, random_bytes_not_integer_aliased esp32 (Platform.generous 0 0) 1
    (Machine.init OK_ATOM OK_ATOM) rfl⟩

/-! ## C1: failure of the allocation guard -/

/-- C1, at `random_bytes(1)` with `malloc` succeeding and the allocation guard failing:
the call returns the invalid term with registers `(error, out_of_memory)` and builds no
heap value, but the buffer it acquired is still outstanding when it returns: the log
holds a `malloc` and no `free`, and the set of outstanding buffers went from empty to
one block. -/
theorem random_bytes_guard_failure_leaks :
    (nif_esp_random_bytes esp32 (Platform.exhausted 0) 1 ArgPtr.ctx_x
        (Machine.init (Term.integer 1) OK_ATOM)).value? = some term_invalid_term ∧
    (nif_esp_random_bytes esp32 (Platform.exhausted 0) 1 ArgPtr.ctx_x
        (Machine.init (Term.integer 1) OK_ATOM)).machine.x 0 = ERROR_ATOM ∧
    (nif_esp_random_bytes esp32 (Platform.exhausted 0) 1 ArgPtr.ctx_x
        (Machine.init (Term.integer 1) OK_ATOM)).machine.x 1 = OUT_OF_MEMORY_ATOM ∧
    (nif_esp_random_bytes esp32 (Platform.exhausted 0) 1 ArgPtr.ctx_x
        (Machine.init (Term.integer 1) OK_ATOM)).machine.trace =
      [Event.malloc 1, Event.esp_fill_random 1 1, Event.memory_ensure_free 4] ∧
    (Machine.init (Term.integer 1) OK_ATOM).buffers = [] ∧
    (nif_esp_random_bytes esp32 (Platform.exhausted 0) 1 ArgPtr.ctx_x
        (Machine.init (Term.integer 1) OK_ATOM)).machine.buffers = [(1, [3])] := by
  decide

/-! ## C7: the value of `random/0` -/

/-- C7, at the RNG word `2^31` on the 32-bit target with the allocation guard
succeeding: `random/0` returns the boxed integer `-2147483648`, not `2147483648`. -/
theorem random_high_bit_is_negative :
    (Platform.generous (2 ^ 31) 0).esp_random % 2 ^ 32 = 2147483648 ∧
    (nif_esp_random esp32 (Platform.generous (2 ^ 31) 0) 0 ArgPtr.ctx_x
        (Machine.init (Term.integer 0) OK_ATOM)).value?
      = some (Term.boxed_int (-2147483648)) ∧
    (nif_esp_random esp32 (Platform.generous (2 ^ 31) 0) 0 ArgPtr.ctx_x
        (Machine.init (Term.integer 0) OK_ATOM)).value?
      ≠ some (Term.boxed_int 2147483648) ∧
    (nif_esp_random esp32 (Platform.generous (2 ^ 31) 0) 0 ArgPtr.ctx_x
        (Machine.init (Term.integer 0) OK_ATOM)).machine.trace
      = [Event.esp_random, Event.memory_ensure_free 2,
         Event.term_make_boxed_int (-2147483648)] := by
  decide

/-! ## Native buffers -/

/-- The adapter produces exactly `len` bytes. -/
theorem random_bytes_length (p : Platform) (len : Nat) : (random_bytes p len).length = len := by
  simp [random_bytes]

/-- Every outstanding address is below the fresh one. -/
theorem fresh_ptr_gt (buffers : List (Nat × List Nat)) :
    ∀ b ∈ buffers, b.1 < fresh_ptr buffers := by
  induction buffers with
  | nil => simp
  | cons hd tl ih =>
    intro b hb
    simp only [fresh_ptr, List.map_cons, List.foldr_cons] at ih ⊢
    rcases List.mem_cons.mp hb with h | h
    · subst h; omega
    · have := ih b h; omega

/-- No outstanding buffer has the fresh address. -/
theorem fresh_ptr_ne (buffers : List (Nat × List Nat)) (a : Nat) (b : List Nat)
    (h : (a, b) ∈ buffers) : ¬ a = fresh_ptr buffers := by
  have := fresh_ptr_gt buffers (a, b) h
  simp at this; omega

/-- Freeing the fresh address leaves the other buffers. -/
theorem filter_fresh (buffers : List (Nat × List Nat)) :
    buffers.filter (fun b => b.1 ≠ fresh_ptr buffers) = buffers := by
  apply List.filter_eq_self.mpr
  intro b hb
  have := fresh_ptr_gt buffers b hb
  simp; omega

/-- Writing at the fresh address leaves the other buffers. -/
theorem map_fresh (buffers : List (Nat × List Nat)) (f : Nat × List Nat → Nat × List Nat) :
    buffers.map (fun b => if b.1 = fresh_ptr buffers then f b else b) = buffers := by
  conv => rhs; rw [← List.map_id buffers]
  apply List.map_congr_left
  intro b hb
  have := fresh_ptr_gt buffers b hb
  have h : b.1 ≠ fresh_ptr buffers := by omega
  simp [h]

/-- The success path for a positive length: the binary holds the random bytes, the log
shows `malloc`, `esp_fill_random`, the guard, the construction and `free`, and the
outstanding buffers are those before the call. -/
theorem random_bytes_positive_run (cfg : TermConfig) (p : Platform) (argc : Int)
    (argv : ArgPtr) (m : Machine) (n : Int)
    (harg : m.arg argv 0 = Term.integer n) (hn : 0 < n)
    (hbuf : p.malloc n.toNat = true)
    (hguard : p.memory_ensure_free
        (cfg.term_binary_data_size_in_terms n.toNat + cfg.BINARY_HEADER_SIZE)
      = MemoryGCResult.MEMORY_GC_OK) :
    nif_esp_random_bytes cfg p argc argv m =
      Outcome.returned (Term.binary (random_bytes p n.toNat))
        { m with trace := m.trace ++
            [Event.malloc n.toNat, Event.esp_fill_random (fresh_ptr m.buffers) n.toNat,
             Event.memory_ensure_free
               (cfg.term_binary_data_size_in_terms n.toNat + cfg.BINARY_HEADER_SIZE),
             Event.term_from_literal_binary (some (fresh_ptr m.buffers)) n.toNat,
             Event.free (fresh_ptr m.buffers)] } := by
  have h1 : ¬ n < 0 := by omega
  have h2 : ¬ n = 0 := by omega
  have h3 : ¬ n.toNat = 0 := by omega
  simp [nif_esp_random_bytes, bind_run, NifM.bind, read_argv, VALIDATE_VALUE, harg,
      term_is_integer, term_to_int, h1, h2, h3, malloc, hbuf, esp_fill_random, memory_ensure_free,
      hguard, term_from_literal_binary, free, pure_run, Machine.log, map_fresh, filter_fresh,
      random_bytes_length]
  exact fresh_ptr_ne m.buffers

/-- The length-zero path, for either answer of the guard. -/
theorem random_bytes_zero_run (cfg : TermConfig) (p : Platform) (argc : Int)
    (argv : ArgPtr) (m : Machine) (harg : m.arg argv 0 = Term.integer 0) :
    nif_esp_random_bytes cfg p argc argv m =
      if p.memory_ensure_free (cfg.term_binary_data_size_in_terms 0 + cfg.BINARY_HEADER_SIZE)
          = MemoryGCResult.MEMORY_GC_OK then
        Outcome.returned (Term.binary [])
          { m with trace := m.trace ++
              [Event.memory_ensure_free
                 (cfg.term_binary_data_size_in_terms 0 + cfg.BINARY_HEADER_SIZE),
               Event.term_from_literal_binary none 0] }
      else
        Outcome.returned term_invalid_term
          { m with
            x := Function.update (Function.update m.x 0 ERROR_ATOM) 1 OUT_OF_MEMORY_ATOM
            trace := m.trace ++
              [Event.memory_ensure_free
                 (cfg.term_binary_data_size_in_terms 0 + cfg.BINARY_HEADER_SIZE)] } := by
  by_cases hg : p.memory_ensure_free
      (cfg.term_binary_data_size_in_terms 0 + cfg.BINARY_HEADER_SIZE)
      = MemoryGCResult.MEMORY_GC_OK
  · simp [nif_esp_random_bytes, bind_run, NifM.bind, read_argv, VALIDATE_VALUE, harg,
      term_is_integer, term_to_int, memory_ensure_free, hg, term_from_literal_binary,
      Machine.log]
  · simp [nif_esp_random_bytes, bind_run, NifM.bind, read_argv, VALIDATE_VALUE, harg,
      term_is_integer, term_to_int, memory_ensure_free, hg, RAISE_ERROR_run,
      Machine.log]

/-- A successful `malloc` adds one block at the fresh address. -/
theorem malloc_run (p : Platform) (m : Machine) (len : Nat) (hbuf : p.malloc len = true) :
    malloc p len m = Outcome.returned (some (fresh_ptr m.buffers))
      { m with
        buffers := (fresh_ptr m.buffers, (List.range len).map p.uninitialised) :: m.buffers
        trace := m.trace ++ [Event.malloc len] } := by
  simp [malloc, hbuf, Machine.log]

/-- The adapter overwrites the first `len` bytes of the block at the head. -/
theorem esp_fill_random_run (p : Platform) (m : Machine) (ptr len : Nat) (old : List Nat)
    (rest : List (Nat × List Nat)) (hm : m.buffers = (ptr, old) :: rest)
    (hfresh : ∀ b ∈ rest, b.1 ≠ ptr) :
    esp_fill_random p ptr len m = Outcome.returned ()
      { m with
        buffers := (ptr, random_bytes p len ++ old.drop len) :: rest
        trace := m.trace ++ [Event.esp_fill_random ptr len] } := by
  have hmap : rest.map (fun b => if b.1 = ptr then (b.1, random_bytes p len ++ old.drop len)
      else b) = rest := by
    conv => rhs; rw [← List.map_id rest]
    apply List.map_congr_left
    intro b hb
    simp [hfresh b hb]
  simp [esp_fill_random, hm, Machine.log, hmap]

/-- After `malloc` and `esp_fill_random` the new block holds the random bytes. -/
theorem malloc_fill_run (p : Platform) (m : Machine) (len : Nat) (hbuf : p.malloc len = true) :
    ∃ m1 m2, malloc p len m = Outcome.returned (some (fresh_ptr m.buffers)) m1 ∧
      esp_fill_random p (fresh_ptr m.buffers) len m1 = Outcome.returned () m2 ∧
      m2.buffers.lookup (fresh_ptr m.buffers) = some (random_bytes p len) := by
  refine ⟨_, _, malloc_run p m len hbuf,
    esp_fill_random_run p _ (fresh_ptr m.buffers) len _ m.buffers rfl ?_, ?_⟩
  · intro b hb
    have := fresh_ptr_gt m.buffers b hb
    omega
  · simp

/-! ## C5: the binary `random_bytes` returns -/

/-- C5: for every integer first argument `n ≥ 0`, when `malloc` hands out the transient
buffer (needed for `n > 0` only) and the allocation guard succeeds, `random_bytes(n)`
returns a binary term, which is not the invalid term, of exactly `n` bytes; these are
the bytes `esp_fill_random` left in the transient buffer (the empty binary for `n = 0`);
the register file and the caller's array are unchanged. -/
theorem random_bytes_returns_exact_binary (cfg : TermConfig) (p : Platform) (argc : Int)
    (argv : ArgPtr) (m : Machine) (n : Int)
    (harg : m.arg argv 0 = Term.integer n) (hn : 0 ≤ n)
    (hbuf : 0 < n → p.malloc n.toNat = true)
    (hguard : p.memory_ensure_free
        (cfg.term_binary_data_size_in_terms n.toNat + cfg.BINARY_HEADER_SIZE)
      = MemoryGCResult.MEMORY_GC_OK) :
    ∃ bytes : List Nat,
      (nif_esp_random_bytes cfg p argc argv m).value? = some (Term.binary bytes) ∧
      Term.binary bytes ≠ term_invalid_term ∧
      (bytes.length : Int) = n ∧
      bytes = random_bytes p n.toNat ∧
      (n = 0 → bytes = []) ∧
      (0 < n → ∃ m1 m2,
        malloc p n.toNat m = Outcome.returned (some (fresh_ptr m.buffers)) m1 ∧
        esp_fill_random p (fresh_ptr m.buffers) n.toNat m1 = Outcome.returned () m2 ∧
        m2.buffers.lookup (fresh_ptr m.buffers) = some bytes) ∧
      (nif_esp_random_bytes cfg p argc argv m).machine.x = m.x ∧
      (nif_esp_random_bytes cfg p argc argv m).machine.args = m.args ∧
      (nif_esp_random_bytes cfg p argc argv m).machine.buffers = m.buffers := by
  refine ⟨random_bytes p n.toNat, ?_, ?_, ?_, rfl, ?_, ?_, ?_⟩
  · rcases eq_or_lt_of_le hn with h0 | hpos
    · subst h0
      rw [random_bytes_zero_run cfg p argc argv m harg]
      simp only [Int.toNat_zero] at hguard
      simp [hguard, Outcome.value?, random_bytes]
    · rw [random_bytes_positive_run cfg p argc argv m n harg hpos (hbuf hpos) hguard]
      simp [Outcome.value?]
  · simp [term_invalid_term]
  · rw [random_bytes_length]; omega
  · intro h0; subst h0; simp [random_bytes]
  · intro hpos
    exact malloc_fill_run p m n.toNat (hbuf hpos)
  · rcases eq_or_lt_of_le hn with h0 | hpos
    · subst h0
      rw [random_bytes_zero_run cfg p argc argv m harg]
      simp only [Int.toNat_zero] at hguard
      simp [hguard, Outcome.machine]
    · rw [random_bytes_positive_run cfg p argc argv m n harg hpos (hbuf hpos) hguard]
      simp [Outcome.machine]

/-- Witness of C5: `random_bytes(3)` on a platform where every allocation succeeds. -/
theorem random_bytes_returns_exact_binary_witness :
    (Machine.init (Term.integer 3) OK_ATOM).arg ArgPtr.ctx_x 0 = Term.integer 3 ∧
    (0 : Int) ≤ 3 ∧
    ∃ bytes : List Nat,
      (nif_esp_random_bytes esp32 (Platform.generous 0 0) 1 ArgPtr.ctx_x
        (Machine.init (Term.integer 3) OK_ATOM)).value? = some (Term.binary bytes) ∧
      (bytes.length : Int) = 3 ∧
      bytes = random_bytes (Platform.generous 0 0) 3 := by
  refine ⟨rfl, by decide, ?_⟩
  obtain ⟨bytes, h1, _, h3, h4, _⟩ :=
    random_bytes_returns_exact_binary esp32 (Platform.generous 0 0) 1 ArgPtr.ctx_x
      (Machine.init (Term.integer 3) OK_ATOM) 3 rfl (by decide) (fun _ => rfl) rfl
  exact ⟨bytes, h1, h3, h4⟩

/-! ## C8: length zero -/

/-- C8, at length 0 with the allocation guard failing: `random_bytes` does not return the
empty binary; it returns the invalid term, writes `error` and `out_of_memory` into
registers 0 and 1 (which held `0`), and after the one guard request there is no binary
construction. -/
theorem random_bytes_zero_guard_failure_is_invalid :
    (Machine.init (Term.integer 0) OK_ATOM).arg ArgPtr.ctx_x 0 = Term.integer 0 ∧
    (Platform.exhausted 0).memory_ensure_free
        (esp32.term_binary_data_size_in_terms 0 + esp32.BINARY_HEADER_SIZE)
      ≠ MemoryGCResult.MEMORY_GC_OK ∧
    (nif_esp_random_bytes esp32 (Platform.exhausted 0) 1 ArgPtr.ctx_x
        (Machine.init (Term.integer 0) OK_ATOM)).value? = some term_invalid_term ∧
    (nif_esp_random_bytes esp32 (Platform.exhausted 0) 1 ArgPtr.ctx_x
        (Machine.init (Term.integer 0) OK_ATOM)).value? ≠ some (Term.binary []) ∧
    (Machine.init (Term.integer 0) OK_ATOM).x 0 = Term.integer 0 ∧
    (nif_esp_random_bytes esp32 (Platform.exhausted 0) 1 ArgPtr.ctx_x
        (Machine.init (Term.integer 0) OK_ATOM)).machine.x 0 = ERROR_ATOM ∧
    (nif_esp_random_bytes esp32 (Platform.exhausted 0) 1 ArgPtr.ctx_x
        (Machine.init (Term.integer 0) OK_ATOM)).machine.x 1 = OUT_OF_MEMORY_ATOM ∧
    (nif_esp_random_bytes esp32 (Platform.exhausted 0) 1 ArgPtr.ctx_x
        (Machine.init (Term.integer 0) OK_ATOM)).machine.trace
      = [Event.memory_ensure_free 3] := by
  decide

/-- C8, amended: for a first argument `0`, `random_bytes` acquires no transient buffer and
never calls `malloc` or `esp_fill_random`, whatever the guard answers.  When the guard
succeeds it returns the empty binary, writes no register, and its only collaborator
calls are one guard request for the data words of a zero-length binary plus the binary
header, and one binary construction of length 0 from the null source, which returns
without a read whatever the source is.  When the guard fails it returns the invalid
term with registers `(error, out_of_memory)`, and its only collaborator call is that
guard request: nothing is constructed. -/
theorem random_bytes_zero_no_buffer (cfg : TermConfig) (p : Platform) (argc : Int)
    (argv : ArgPtr) (m : Machine) (harg : m.arg argv 0 = Term.integer 0) :
    (nif_esp_random_bytes cfg p argc argv m).machine.buffers = m.buffers ∧
    (∀ e ∈ ((nif_esp_random_bytes cfg p argc argv m).machine.trace.drop m.trace.length),
      (∀ size, e ≠ Event.malloc size) ∧ (∀ ptr len, e ≠ Event.esp_fill_random ptr len)) ∧
    (p.memory_ensure_free (cfg.term_binary_data_size_in_terms 0 + cfg.BINARY_HEADER_SIZE)
        = MemoryGCResult.MEMORY_GC_OK →
      (nif_esp_random_bytes cfg p argc argv m).value? = some (Term.binary []) ∧
      (nif_esp_random_bytes cfg p argc argv m).machine.trace = m.trace ++
        [Event.memory_ensure_free
           (cfg.term_binary_data_size_in_terms 0 + cfg.BINARY_HEADER_SIZE),
         Event.term_from_literal_binary none 0] ∧
      (nif_esp_random_bytes cfg p argc argv m).machine.x = m.x ∧
      (nif_esp_random_bytes cfg p argc argv m).machine.args = m.args) ∧
    (p.memory_ensure_free (cfg.term_binary_data_size_in_terms 0 + cfg.BINARY_HEADER_SIZE)
        ≠ MemoryGCResult.MEMORY_GC_OK →
      (nif_esp_random_bytes cfg p argc argv m).value? = some term_invalid_term ∧
      (nif_esp_random_bytes cfg p argc argv m).machine.x 0 = ERROR_ATOM ∧
      (nif_esp_random_bytes cfg p argc argv m).machine.x 1 = OUT_OF_MEMORY_ATOM ∧
      (nif_esp_random_bytes cfg p argc argv m).machine.trace = m.trace ++
        [Event.memory_ensure_free
           (cfg.term_binary_data_size_in_terms 0 + cfg.BINARY_HEADER_SIZE)]) ∧
    (∀ (src : Option Nat) (m0 : Machine),
      term_from_literal_binary src 0 m0 =
        Outcome.returned (Term.binary []) (m0.log (Event.term_from_literal_binary src 0))) := by
  rw [random_bytes_zero_run cfg p argc argv m harg]
  refine ⟨?_, ?_, ?_, ?_, ?_⟩
  · split <;> simp [Outcome.machine]
  · split <;> simp [Outcome.machine]
  · intro hg
    simp [hg, Outcome.value?, Outcome.machine]
  · intro hg
    simp [hg, Outcome.value?, Outcome.machine]
  · intro src m0
    simp [term_from_literal_binary]

/-- Witness of C8 (amended): `random_bytes(0)` on a platform where the guard succeeds,
and on one where it fails. -/
theorem random_bytes_zero_no_buffer_witness :
    (Machine.init (Term.integer 0) OK_ATOM).arg ArgPtr.ctx_x 0 = Term.integer 0 ∧
    (nif_esp_random_bytes esp32 (Platform.generous 0 0) 1 ArgPtr.ctx_x
      (Machine.init (Term.integer 0) OK_ATOM)).value? = some (Term.binary []) ∧
    (nif_esp_random_bytes esp32 (Platform.generous 0 0) 1 ArgPtr.ctx_x
      (Machine.init (Term.integer 0) OK_ATOM)).machine.trace =
        [Event.memory_ensure_free 3, Event.term_from_literal_binary none 0] ∧
    (nif_esp_random_bytes esp32 (Platform.exhausted 0) 1 ArgPtr.ctx_x
      (Machine.init (Term.integer 0) OK_ATOM)).value? = some term_invalid_term ∧
    (nif_esp_random_bytes esp32 (Platform.exhausted 0) 1 ArgPtr.ctx_x
      (Machine.init (Term.integer 0) OK_ATOM)).machine.buffers = [] :=
  ⟨rfl,
   ((random_bytes_zero_no_buffer esp32 (Platform.generous 0 0) 1 ArgPtr.ctx_x
      (Machine.init (Term.integer 0) OK_ATOM) rfl).2.2.1 rfl).1,
   ((random_bytes_zero_no_buffer esp32 (Platform.generous 0 0) 1 ArgPtr.ctx_x
      (Machine.init (Term.integer 0) OK_ATOM) rfl).2.2.1 rfl).2.1,
   ((random_bytes_zero_no_buffer esp32 (Platform.exhausted 0) 1 ArgPtr.ctx_x
      (Machine.init (Term.integer 0) OK_ATOM) rfl).2.2.2.1 (by decide)).1,
   (random_bytes_zero_no_buffer esp32 (Platform.exhausted 0) 1 ArgPtr.ctx_x
      (Machine.init (Term.integer 0) OK_ATOM) rfl).1⟩

/-! ## C9: restart -/

/-- C9: for every context and argument vector, `nif_esp_restart` ends in the restart of
the device: it never returns a term (neither `ok` nor the invalid term) to its caller,
its only collaborator call is `esp_restart`, and no register or argument slot is
written. -/
theorem restart_never_returns (cfg : TermConfig) (p : Platform) (argc : Int)
    (argv : ArgPtr) (m : Machine) :
    nif_esp_restart cfg p argc argv m = Outcome.restarted (m.log Event.esp_restart) ∧
    (∀ (t : Term) (m1 : Machine), nif_esp_restart cfg p argc argv m ≠ Outcome.returned t m1) ∧
    (nif_esp_restart cfg p argc argv m).returns = false ∧
    (nif_esp_restart cfg p argc argv m).value? = none ∧
    (nif_esp_restart cfg p argc argv m).machine.x = m.x ∧
    (nif_esp_restart cfg p argc argv m).machine.args = m.args ∧
    (nif_esp_restart cfg p argc argv m).machine.trace = m.trace ++ [Event.esp_restart] := by
  have h : nif_esp_restart cfg p argc argv m = Outcome.restarted (m.log Event.esp_restart) := rfl
  rw [h]
  simp [Outcome.returns, Outcome.value?, Outcome.machine, Machine.log]

/-! ## C2 and C10: reset cause -/

/-- The `switch` as a chain of comparisons, run after the adapter call. -/
theorem reset_reason_run (cfg : TermConfig) (p : Platform) (argc : Int) (argv : ArgPtr)
    (m : Machine) :
    nif_esp_reset_reason cfg p argc argv m =
      (if p.esp_reset_reason = ESP_RST_UNKNOWN then context_make_atom esp_rst_unknown_atom
       else if p.esp_reset_reason = ESP_RST_POWERON then context_make_atom esp_rst_poweron
       else if p.esp_reset_reason = ESP_RST_EXT then context_make_atom esp_rst_ext
       else if p.esp_reset_reason = ESP_RST_SW then context_make_atom esp_rst_sw
       else if p.esp_reset_reason = ESP_RST_PANIC then context_make_atom esp_rst_panic
       else if p.esp_reset_reason = ESP_RST_INT_WDT then context_make_atom esp_rst_int_wdt
       else if p.esp_reset_reason = ESP_RST_TASK_WDT then context_make_atom esp_rst_task_wdt
       else if p.esp_reset_reason = ESP_RST_WDT then context_make_atom esp_rst_wdt
       else if p.esp_reset_reason = ESP_RST_DEEPSLEEP then context_make_atom esp_rst_deepsleep
       else if p.esp_reset_reason = ESP_RST_BROWNOUT then context_make_atom esp_rst_brownout
       else if p.esp_reset_reason = ESP_RST_SDIO then context_make_atom esp_rst_sdio
       else pure UNDEFINED_ATOM) (m.log Event.esp_reset_reason) := rfl

/-- Case analysis on the `switch`: the call ends as `context_make_atom` on one of the
eleven literals does, or returns `UNDEFINED_ATOM`. -/
theorem reset_reason_cases (cfg : TermConfig) (p : Platform) (argc : Int) (argv : ArgPtr)
    (m : Machine) (P : Outcome Term → Prop)
    (hlit : ∀ lit ∈ reset_atom_literals,
      P (context_make_atom lit (m.log Event.esp_reset_reason)))
    (hdef : P (Outcome.returned UNDEFINED_ATOM (m.log Event.esp_reset_reason))) :
    P (nif_esp_reset_reason cfg p argc argv m) := by
  rw [reset_reason_run]
  by_cases h0 : p.esp_reset_reason = ESP_RST_UNKNOWN
  · rw [if_pos h0]
    exact hlit esp_rst_unknown_atom (by simp [reset_atom_literals])
  rw [if_neg h0]
  by_cases h1 : p.esp_reset_reason = ESP_RST_POWERON
  · rw [if_pos h1]
    exact hlit esp_rst_poweron (by simp [reset_atom_literals])
  rw [if_neg h1]
  by_cases h2 : p.esp_reset_reason = ESP_RST_EXT
  · rw [if_pos h2]
    exact hlit esp_rst_ext (by simp [reset_atom_literals])
  rw [if_neg h2]
  by_cases h3 : p.esp_reset_reason = ESP_RST_SW
  · rw [if_pos h3]
    exact hlit esp_rst_sw (by simp [reset_atom_literals])
  rw [if_neg h3]
  by_cases h4 : p.esp_reset_reason = ESP_RST_PANIC
  · rw [if_pos h4]
    exact hlit esp_rst_panic (by simp [reset_atom_literals])
  rw [if_neg h4]
  by_cases h5 : p.esp_reset_reason = ESP_RST_INT_WDT
  · rw [if_pos h5]
    exact hlit esp_rst_int_wdt (by simp [reset_atom_literals])
  rw [if_neg h5]
  by_cases h6 : p.esp_reset_reason = ESP_RST_TASK_WDT
  · rw [if_pos h6]
    exact hlit esp_rst_task_wdt (by simp [reset_atom_literals])
  rw [if_neg h6]
  by_cases h7 : p.esp_reset_reason = ESP_RST_WDT
  · rw [if_pos h7]
    exact hlit esp_rst_wdt (by simp [reset_atom_literals])
  rw [if_neg h7]
  by_cases h8 : p.esp_reset_reason = ESP_RST_DEEPSLEEP
  · rw [if_pos h8]
    exact hlit esp_rst_deepsleep (by simp [reset_atom_literals])
  rw [if_neg h8]
  by_cases h9 : p.esp_reset_reason = ESP_RST_BROWNOUT
  · rw [if_pos h9]
    exact hlit esp_rst_brownout (by simp [reset_atom_literals])
  rw [if_neg h9]
  by_cases h10 : p.esp_reset_reason = ESP_RST_SDIO
  · rw [if_pos h10]
    exact hlit esp_rst_sdio (by simp [reset_atom_literals])
  rw [if_neg h10]
  exact hdef

/-- `reset_reason/0` always returns, and what it returns is an atom. -/
theorem reset_reason_returns_atom (cfg : TermConfig) (p : Platform) (argc : Int)
    (argv : ArgPtr) (m : Machine) :
    ∃ name m1, nif_esp_reset_reason cfg p argc argv m = Outcome.returned (Term.atom name) m1 := by
  apply reset_reason_cases cfg p argc argv m
    (fun out => ∃ name m1, out = Outcome.returned (Term.atom name) m1)
  · intro lit hlit
    simp only [reset_atom_literals, List.mem_cons, List.mem_singleton, List.mem_nil_iff,
      or_false] at hlit
    rcases hlit with h | h | h | h | h | h | h | h | h | h | h <;> subst h <;>
      exact ⟨_, _, rfl⟩
  · exact ⟨_, _, rfl⟩

/-- The term `reset_reason/0` returns depends on the reported cause only. -/
theorem reset_reason_value (cfg : TermConfig) (p : Platform) (argc : Int) (argv : ArgPtr)
    (m : Machine) :
    (nif_esp_reset_reason cfg p argc argv m).value? =
      (nif_esp_reset_reason esp32 (Platform.generous 0 p.esp_reset_reason) 0 ArgPtr.ctx_x
        (Machine.init OK_ATOM OK_ATOM)).value? := by
  rw [reset_reason_run, reset_reason_run]
  have hp : (Platform.generous 0 p.esp_reset_reason).esp_reset_reason = p.esp_reset_reason := rfl
  rw [hp]
  by_cases h0 : p.esp_reset_reason = ESP_RST_UNKNOWN
  · rw [if_pos h0]
    rfl
  rw [if_neg h0]
  by_cases h1 : p.esp_reset_reason = ESP_RST_POWERON
  · rw [if_pos h1]
    rfl
  rw [if_neg h1]
  by_cases h2 : p.esp_reset_reason = ESP_RST_EXT
  · rw [if_pos h2]
    rfl
  rw [if_neg h2]
  by_cases h3 : p.esp_reset_reason = ESP_RST_SW
  · rw [if_pos h3]
    rfl
  rw [if_neg h3]
  by_cases h4 : p.esp_reset_reason = ESP_RST_PANIC
  · rw [if_pos h4]
    rfl
  rw [if_neg h4]
  by_cases h5 : p.esp_reset_reason = ESP_RST_INT_WDT
  · rw [if_pos h5]
    rfl
  rw [if_neg h5]
  by_cases h6 : p.esp_reset_reason = ESP_RST_TASK_WDT
  · rw [if_pos h6]
    rfl
  rw [if_neg h6]
  by_cases h7 : p.esp_reset_reason = ESP_RST_WDT
  · rw [if_pos h7]
    rfl
  rw [if_neg h7]
  by_cases h8 : p.esp_reset_reason = ESP_RST_DEEPSLEEP
  · rw [if_pos h8]
    rfl
  rw [if_neg h8]
  by_cases h9 : p.esp_reset_reason = ESP_RST_BROWNOUT
  · rw [if_pos h9]
    rfl
  rw [if_neg h9]
  by_cases h10 : p.esp_reset_reason = ESP_RST_SDIO
  · rw [if_pos h10]
    rfl
  rw [if_neg h10]
  rfl

/-- Outside the eleven defined codes the `default` label is taken. -/
theorem reset_reason_default (cfg : TermConfig) (p : Platform) (argc : Int) (argv : ArgPtr)
    (m : Machine) (h : p.esp_reset_reason ∉ defined_reset_codes) :
    nif_esp_reset_reason cfg p argc argv m =
      Outcome.returned UNDEFINED_ATOM (m.log Event.esp_reset_reason) := by
  have hne : ∀ c ∈ defined_reset_codes, ¬ p.esp_reset_reason = c := fun c hc e => h (e ▸ hc)
  rw [reset_reason_run, if_neg (hne _ (by decide)), if_neg (hne _ (by decide)),
    if_neg (hne _ (by decide)), if_neg (hne _ (by decide)), if_neg (hne _ (by decide)),
    if_neg (hne _ (by decide)), if_neg (hne _ (by decide)), if_neg (hne _ (by decide)),
    if_neg (hne _ (by decide)), if_neg (hne _ (by decide)), if_neg (hne _ (by decide))]
  rfl

/-- C2, at the cause code 11 (outside the eleven defined codes): `reset_reason/0` returns
the atom `undefined`, which is not the symbol it returns for `ESP_RST_UNKNOWN`. -/
theorem reset_reason_unlisted_code_is_undefined :
    (11 : Int) ∉ defined_reset_codes ∧
    (nif_esp_reset_reason esp32 (Platform.generous 0 11) 0 ArgPtr.ctx_x
      (Machine.init OK_ATOM OK_ATOM)).value? = some UNDEFINED_ATOM ∧
    (nif_esp_reset_reason esp32 (Platform.generous 0 ESP_RST_UNKNOWN) 0 ArgPtr.ctx_x
      (Machine.init OK_ATOM OK_ATOM)).value? = some (Term.atom "esp_rst_unknown".toList) ∧
    (nif_esp_reset_reason esp32 (Platform.generous 0 11) 0 ArgPtr.ctx_x
      (Machine.init OK_ATOM OK_ATOM)).value? ≠
    (nif_esp_reset_reason esp32 (Platform.generous 0 ESP_RST_UNKNOWN) 0 ArgPtr.ctx_x
      (Machine.init OK_ATOM OK_ATOM)).value? := by
  decide

/-- C2, amended: `reset_reason/0` is total over all cause codes: it always returns, never
the invalid term; for each of the eleven defined codes it returns the symbol of the same
name; for every code outside that set it returns the default atom `undefined`, which is
neither the `esp_rst_unknown` symbol nor the invalid term. -/
theorem reset_reason_total (cfg : TermConfig) (p : Platform) (argc : Int) (argv : ArgPtr)
    (m : Machine) :
    (nif_esp_reset_reason cfg p argc argv m).returns = true ∧
    (nif_esp_reset_reason cfg p argc argv m).value? ≠ some term_invalid_term ∧
    (p.esp_reset_reason = ESP_RST_UNKNOWN →
      (nif_esp_reset_reason cfg p argc argv m).value?
        = some (Term.atom "esp_rst_unknown".toList)) ∧
    (p.esp_reset_reason = ESP_RST_POWERON →
      (nif_esp_reset_reason cfg p argc argv m).value?
        = some (Term.atom "esp_rst_poweron".toList)) ∧
    (p.esp_reset_reason = ESP_RST_EXT →
      (nif_esp_reset_reason cfg p argc argv m).value?
        = some (Term.atom "esp_rst_ext".toList)) ∧
    (p.esp_reset_reason = ESP_RST_SW →
      (nif_esp_reset_reason cfg p argc argv m).value?
        = some (Term.atom "esp_rst_sw".toList)) ∧
    (p.esp_reset_reason = ESP_RST_PANIC →
      (nif_esp_reset_reason cfg p argc argv m).value?
        = some (Term.atom "esp_rst_panic".toList)) ∧
    (p.esp_reset_reason = ESP_RST_INT_WDT →
      (nif_esp_reset_reason cfg p argc argv m).value?
        = some (Term.atom "esp_rst_int_wdt".toList)) ∧
    (p.esp_reset_reason = ESP_RST_TASK_WDT →
      (nif_esp_reset_reason cfg p argc argv m).value?
        = some (Term.atom "esp_rst_task_wdt".toList)) ∧
    (p.esp_reset_reason = ESP_RST_WDT →
      (nif_esp_reset_reason cfg p argc argv m).value?
        = some (Term.atom "esp_rst_wdt".toList)) ∧
    (p.esp_reset_reason = ESP_RST_DEEPSLEEP →
      (nif_esp_reset_reason cfg p argc argv m).value?
        = some (Term.atom "esp_rst_deepsleep".toList)) ∧
    (p.esp_reset_reason = ESP_RST_BROWNOUT →
      (nif_esp_reset_reason cfg p argc argv m).value?
        = some (Term.atom "esp_rst_brownout".toList)) ∧
    (p.esp_reset_reason = ESP_RST_SDIO →
      (nif_esp_reset_reason cfg p argc argv m).value?
        = some (Term.atom "esp_rst_sdio".toList)) ∧
    (p.esp_reset_reason ∉ defined_reset_codes →
      (nif_esp_reset_reason cfg p argc argv m).value? = some UNDEFINED_ATOM) ∧
    UNDEFINED_ATOM ≠ Term.atom "esp_rst_unknown".toList ∧
    UNDEFINED_ATOM ≠ term_invalid_term := by
  obtain ⟨name, m1, hret⟩ := reset_reason_returns_atom cfg p argc argv m
  refine ⟨?_, ?_, ?_, ?_, ?_, ?_, ?_, ?_, ?_, ?_, ?_, ?_, ?_, ?_, by decide, by decide⟩
  · rw [hret]; rfl
  · rw [hret]; simp [Outcome.value?, term_invalid_term]
  all_goals first
    | (intro h; rw [reset_reason_value, h]; rfl)
    | (intro h; rw [reset_reason_default cfg p argc argv m h]; rfl)

/-- Witness of C2 (amended): a platform that reports `ESP_RST_DEEPSLEEP`, and one that
reports the code 11. -/
theorem reset_reason_total_witness :
    (Platform.generous 0 ESP_RST_DEEPSLEEP).esp_reset_reason = ESP_RST_DEEPSLEEP ∧
    (nif_esp_reset_reason esp32 (Platform.generous 0 ESP_RST_DEEPSLEEP) 0 ArgPtr.ctx_x
      (Machine.init OK_ATOM OK_ATOM)).value? = some (Term.atom "esp_rst_deepsleep".toList) ∧
    (Platform.generous 0 11).esp_reset_reason ∉ defined_reset_codes ∧
    (nif_esp_reset_reason esp32 (Platform.generous 0 11) 0 ArgPtr.ctx_x
      (Machine.init OK_ATOM OK_ATOM)).value? = some UNDEFINED_ATOM :=
  ⟨rfl,
   (reset_reason_total esp32 (Platform.generous 0 ESP_RST_DEEPSLEEP) 0 ArgPtr.ctx_x
      (Machine.init OK_ATOM OK_ATOM)).2.2.2.2.2.2.2.2.2.2.1 rfl,
   by decide,
   (reset_reason_total esp32 (Platform.generous 0 11) 0 ArgPtr.ctx_x
      (Machine.init OK_ATOM OK_ATOM)).2.2.2.2.2.2.2.2.2.2.2.2.2.1 (by decide)⟩

/-- C10: each of the eleven reset-cause atom literals is a well-formed length-prefixed
string (its first byte is the number of characters that follow, `0x0F` for
`esp_rst_unknown`, `0x11` for `esp_rst_deepsleep`), the eleven names they encode are
pairwise distinct, and `reset_reason/0` is injective on the eleven defined cause codes. -/
theorem reset_atoms_well_formed_and_distinct :
    (∀ lit ∈ reset_atom_literals, lit.head?.map Char.toNat = some lit.tail.length) ∧
    esp_rst_unknown_atom.head? = some (Char.ofNat 0x0F) ∧
    esp_rst_deepsleep.head? = some (Char.ofNat 0x11) ∧
    reset_atom_literals.map atom_literal_name =
      ["esp_rst_unknown".toList, "esp_rst_poweron".toList, "esp_rst_ext".toList,
       "esp_rst_sw".toList, "esp_rst_panic".toList, "esp_rst_int_wdt".toList,
       "esp_rst_task_wdt".toList, "esp_rst_wdt".toList, "esp_rst_deepsleep".toList,
       "esp_rst_brownout".toList, "esp_rst_sdio".toList] ∧
    (reset_atom_literals.map atom_literal_name).Nodup ∧
    defined_reset_codes.Nodup ∧
    (∀ (cfg : TermConfig) (p q : Platform) (argc : Int) (argv : ArgPtr) (m : Machine),
      p.esp_reset_reason ∈ defined_reset_codes → q.esp_reset_reason ∈ defined_reset_codes →
      (nif_esp_reset_reason cfg p argc argv m).value?
        = (nif_esp_reset_reason cfg q argc argv m).value? →
      p.esp_reset_reason = q.esp_reset_reason) := by
  refine ⟨by decide, by decide, by decide, by decide, by decide, by decide, ?_⟩
  intro cfg p q argc argv m hp hq
  rw [reset_reason_value cfg p, reset_reason_value cfg q]
  have key : ∀ a ∈ defined_reset_codes, ∀ b ∈ defined_reset_codes,
      (nif_esp_reset_reason esp32 (Platform.generous 0 a) 0 ArgPtr.ctx_x
        (Machine.init OK_ATOM OK_ATOM)).value? =
      (nif_esp_reset_reason esp32 (Platform.generous 0 b) 0 ArgPtr.ctx_x
        (Machine.init OK_ATOM OK_ATOM)).value? → a = b := by
    decide
  exact key _ hp _ hq

/-- Witness of C10: deep sleep and brownout yield different symbols. -/
theorem reset_atoms_well_formed_and_distinct_witness :
    (nif_esp_reset_reason esp32 (Platform.generous 0 ESP_RST_DEEPSLEEP) 0 ArgPtr.ctx_x
        (Machine.init OK_ATOM OK_ATOM)).value? ≠
    (nif_esp_reset_reason esp32 (Platform.generous 0 ESP_RST_BROWNOUT) 0 ArgPtr.ctx_x
        (Machine.init OK_ATOM OK_ATOM)).value? := fun h =>
  absurd
    (reset_atoms_well_formed_and_distinct.2.2.2.2.2.2 esp32
      (Platform.generous 0 ESP_RST_DEEPSLEEP) (Platform.generous 0 ESP_RST_BROWNOUT) 0
      ArgPtr.ctx_x (Machine.init OK_ATOM OK_ATOM) (by decide) (by decide) h)
    (by decide)

/-! ## C6: dispatch -/

/-- Characters with the same code are equal. -/
theorem char_toNat_injective (a b : Char) (h : a.toNat = b.toNat) : a = b := by
  apply Char.ext
  apply UInt32.ext
  exact h

/-- The empty array is the empty C string. -/
theorem c_string_nil : c_string [] = [] := rfl

/-- A C string ends at its first NUL. -/
theorem c_string_cons (a : Char) (s : List Char) :
    c_string (a :: s) = if a.toNat = 0 then [] else a :: c_string s := by
  by_cases h : a.toNat = 0 <;> simp [c_string, List.takeWhile, h]

/-- The libc contract of `strcmp`: the result is zero exactly when the two C strings
have the same characters. -/
theorem strcmp_eq_zero_iff (s1 s2 : List Char) :
    strcmp s1 s2 = 0 ↔ c_string s1 = c_string s2 := by
  induction s1 generalizing s2 with
  | nil =>
    cases s2 with
    | nil => simp [strcmp]
    | cons b t =>
      rw [c_string_nil, c_string_cons]
      by_cases hb : b.toNat = 0
      · simp [strcmp, hb]
      · simp [strcmp, hb]
  | cons a s ih =>
    cases s2 with
    | nil =>
      rw [c_string_nil, c_string_cons]
      by_cases ha : a.toNat = 0
      · simp [strcmp, ha]
      · simp [strcmp, ha]
    | cons b t =>
      rw [c_string_cons, c_string_cons]
      by_cases hab : a = b
      · subst hab
        by_cases ha : a.toNat = 0
        · simp [strcmp, ha]
        · simp [strcmp, ha, ih]
      · have hne : a.toNat ≠ b.toNat := fun h => hab (char_toNat_injective a b h)
        have hz : ¬ ((a.toNat : Int) - (b.toNat : Int) = 0) := by omega
        by_cases ha : a.toNat = 0
        · have hb : ¬ b.toNat = 0 := by omega
          simp [strcmp, hab, ha, hb, hne]
        · by_cases hb : b.toNat = 0
          · simp [strcmp, hab, ha, hb]
          · simp [strcmp, hab, ha, hb, hz]

/-- Comparison with a key that holds no NUL. -/
theorem strcmp_key (key nifname : List Char) (hkey : c_string key = key) :
    strcmp key nifname = 0 ↔ c_string nifname = key := by
  rw [strcmp_eq_zero_iff, hkey]
  exact eq_comm

/-- C6: `platform_nifs_get_nif` is an exact-string-match lookup over four keys: a name
resolves to the descriptor of `esp:random/0`, `esp:random_bytes/1`, `esp:restart/0` or
`esp:reset_reason/0` when its C string is that key, and to `NULL` otherwise; the four
descriptors have entry points `nif_esp_random`, `nif_esp_random_bytes`,
`nif_esp_restart`, `nif_esp_reset_reason`; `esp:nonexistent/3`, `esp:random/1` and the
empty string are not found. -/
theorem platform_nifs_get_nif_exact_match (nifname : List Char) :
    platform_nifs_get_nif nifname =
      (if c_string nifname = "esp:random/0".toList then some esp_random_nif
       else if c_string nifname = "esp:random_bytes/1".toList then some esp_random_bytes_nif
       else if c_string nifname = "esp:restart/0".toList then some esp_restart_nif
       else if c_string nifname = "esp:reset_reason/0".toList then some esp_reset_reason_nif
       else none) ∧
    (c_string nifname ∉ ["esp:random/0".toList, "esp:random_bytes/1".toList,
        "esp:restart/0".toList, "esp:reset_reason/0".toList] →
      platform_nifs_get_nif nifname = none) ∧
    esp_random_nif.nif_ptr = nif_esp_random ∧
    esp_random_bytes_nif.nif_ptr = nif_esp_random_bytes ∧
    esp_restart_nif.nif_ptr = nif_esp_restart ∧
    esp_reset_reason_nif.nif_ptr = nif_esp_reset_reason ∧
    platform_nifs_get_nif "esp:random/0".toList = some esp_random_nif ∧
    platform_nifs_get_nif "esp:random_bytes/1".toList = some esp_random_bytes_nif ∧
    platform_nifs_get_nif "esp:restart/0".toList = some esp_restart_nif ∧
    platform_nifs_get_nif "esp:reset_reason/0".toList = some esp_reset_reason_nif ∧
    platform_nifs_get_nif "esp:nonexistent/3".toList = none ∧
    platform_nifs_get_nif "esp:random/1".toList = none ∧
    platform_nifs_get_nif [] = none := by
  have general : ∀ name : List Char, platform_nifs_get_nif name =
      (if c_string name = "esp:random/0".toList then some esp_random_nif
       else if c_string name = "esp:random_bytes/1".toList then some esp_random_bytes_nif
       else if c_string name = "esp:restart/0".toList then some esp_restart_nif
       else if c_string name = "esp:reset_reason/0".toList then some esp_reset_reason_nif
       else none) := by
    intro name
    unfold platform_nifs_get_nif
    simp only [strcmp_key "esp:random/0".toList name (by decide),
      strcmp_key "esp:random_bytes/1".toList name (by decide),
      strcmp_key "esp:restart/0".toList name (by decide),
      strcmp_key "esp:reset_reason/0".toList name (by decide)]
  refine ⟨general nifname, ?_, rfl, rfl, rfl, rfl, ?_, ?_, ?_, ?_, ?_, ?_, ?_⟩
  · intro h
    have h1 : ¬ c_string nifname = "esp:random/0".toList := fun e => h (by simp [e])
    have h2 : ¬ c_string nifname = "esp:random_bytes/1".toList := fun e => h (by simp [e])
    have h3 : ¬ c_string nifname = "esp:restart/0".toList := fun e => h (by simp [e])
    have h4 : ¬ c_string nifname = "esp:reset_reason/0".toList := fun e => h (by simp [e])
    rw [general, if_neg h1, if_neg h2, if_neg h3, if_neg h4]
  · rw [general, if_pos (by decide)]
  · rw [general, if_neg (by decide), if_pos (by decide)]
  · rw [general, if_neg (by decide), if_neg (by decide), if_pos (by decide)]
  · rw [general, if_neg (by decide), if_neg (by decide), if_neg (by decide),
      if_pos (by decide)]
  · rw [general, if_neg (by decide), if_neg (by decide), if_neg (by decide),
      if_neg (by decide)]
  · rw [general, if_neg (by decide), if_neg (by decide), if_neg (by decide),
      if_neg (by decide)]
  · rw [general, if_neg (by decide), if_neg (by decide), if_neg (by decide),
      if_neg (by decide)]

/-! ## Supporting facts on the guard-failure paths and on `random/0` -/

/-- What `random/0` does, for either answer of the guard. -/
theorem random_run (cfg : TermConfig) (p : Platform) (argc : Int) (argv : ArgPtr)
    (m : Machine) :
    nif_esp_random cfg p argc argv m =
      if p.memory_ensure_free cfg.BOXED_INT_SIZE = MemoryGCResult.MEMORY_GC_OK then
        Outcome.returned (Term.boxed_int (to_avm_int cfg.avm_int_bits (p.esp_random % 2 ^ 32)))
          { m with trace := m.trace ++
              [Event.esp_random, Event.memory_ensure_free cfg.BOXED_INT_SIZE,
               Event.term_make_boxed_int
                 (to_avm_int cfg.avm_int_bits (p.esp_random % 2 ^ 32))] }
      else
        Outcome.returned term_invalid_term
          { m with
            x := Function.update (Function.update m.x 0 ERROR_ATOM) 1 OUT_OF_MEMORY_ATOM
            trace := m.trace ++
              [Event.esp_random, Event.memory_ensure_free cfg.BOXED_INT_SIZE] } := by
  by_cases hg : p.memory_ensure_free cfg.BOXED_INT_SIZE = MemoryGCResult.MEMORY_GC_OK
  · simp [nif_esp_random, bind_run, NifM.bind, esp_random, memory_ensure_free, hg,
      term_make_boxed_int, Machine.log]
  · simp [nif_esp_random, bind_run, NifM.bind, esp_random, memory_ensure_free, hg,
      RAISE_ERROR_run, Machine.log]

/-- Below `2^31` the 32-bit conversion keeps the value; from `2^31` on it subtracts
`2^32`. -/
theorem to_avm_int_32 (r : Nat) (hr : r < 2 ^ 32) :
    to_avm_int 32 r = if r < 2 ^ 31 then (r : Int) else (r : Int) - 2 ^ 32 := by
  have h : r % 2 ^ 32 = r := Nat.mod_eq_of_lt hr
  unfold to_avm_int
  rw [h]

/-- With `malloc` succeeding and the guard failing, `random_bytes(n)` for `n > 0`
returns the invalid term with `(error, out_of_memory)` and leaves the buffer it
acquired outstanding. -/
theorem random_bytes_positive_guard_failure_run (cfg : TermConfig) (p : Platform)
    (argc : Int) (argv : ArgPtr) (m : Machine) (n : Int)
    (harg : m.arg argv 0 = Term.integer n) (hn : 0 < n)
    (hbuf : p.malloc n.toNat = true)
    (hguard : p.memory_ensure_free
        (cfg.term_binary_data_size_in_terms n.toNat + cfg.BINARY_HEADER_SIZE)
      ≠ MemoryGCResult.MEMORY_GC_OK) :
    nif_esp_random_bytes cfg p argc argv m =
      Outcome.returned term_invalid_term
        { m with
          x := Function.update (Function.update m.x 0 ERROR_ATOM) 1 OUT_OF_MEMORY_ATOM
          buffers := (fresh_ptr m.buffers, random_bytes p n.toNat) :: m.buffers
          trace := m.trace ++
            [Event.malloc n.toNat, Event.esp_fill_random (fresh_ptr m.buffers) n.toNat,
             Event.memory_ensure_free
               (cfg.term_binary_data_size_in_terms n.toNat + cfg.BINARY_HEADER_SIZE)] } := by
  have h1 : ¬ n < 0 := by omega
  have h2 : ¬ n = 0 := by omega
  simp [nif_esp_random_bytes, bind_run, NifM.bind, read_argv, VALIDATE_VALUE, harg,
      term_is_integer, term_to_int, h1, h2, malloc, hbuf, esp_fill_random, memory_ensure_free,
      hguard, RAISE_ERROR_run, Machine.log, map_fresh]

/-- When `malloc` returns the null pointer, `random_bytes(n)` for `n > 0` returns the
invalid term with `(error, out_of_memory)` before the guard or the adapter is called. -/
theorem random_bytes_malloc_failure_run (cfg : TermConfig) (p : Platform)
    (argc : Int) (argv : ArgPtr) (m : Machine) (n : Int)
    (harg : m.arg argv 0 = Term.integer n) (hn : 0 < n)
    (hbuf : p.malloc n.toNat = false) :
    nif_esp_random_bytes cfg p argc argv m =
      Outcome.returned term_invalid_term
        { m with
          x := Function.update (Function.update m.x 0 ERROR_ATOM) 1 OUT_OF_MEMORY_ATOM
          trace := m.trace ++ [Event.malloc n.toNat] } := by
  have h1 : ¬ n < 0 := by omega
  have h2 : ¬ n = 0 := by omega
  simp [nif_esp_random_bytes, bind_run, NifM.bind, read_argv, VALIDATE_VALUE, harg,
      term_is_integer, term_to_int, h1, h2, malloc, hbuf, RAISE_ERROR_run, Machine.log]

end AtomVM
